import Mathlib

/-
Verification of the order lifecycle, inventory and cart logic of the
e-commerce backend.  The JavaScript models and routes are embedded
shallowly: Mongoose documents become structures, document methods become
pure functions on those structures, the pre-save hooks are applied by the
functions that model a call ending in `save()`, and the Express route
handlers become functions from the loaded documents to a response
together with the database state after the handler ran.  Machine clocks
and generated identifiers are passed as explicit parameters.  Money is
modelled by the rationals, quantities by naturals, and stock counters by
integers (so that the model can express the counters going out of range).
-/

namespace Shop

/-- A product variant: a colour and a size, as used by the cart item
subdocuments. -/
structure Variant where
  colour : String
  size : String
deriving DecidableEq

/-- The Product document of `src/models/Product.js`, restricted to the
fields the inventory and checkout logic reads or writes. -/
structure Product where
  id : Nat
  name : String
  price : Rat
  colour : String
  size : String
  totalStock : Int
  soldCount : Int
  inStock : Bool
  isActive : Bool
deriving DecidableEq

/-- The virtual `availableStock = totalStock - soldCount` of
`src/models/Product.js`. -/
def Product.availableStock (p : Product) : Int :=
  p.totalStock - p.soldCount

/-- The product pre-save hook of `src/models/Product.js`: it recomputes
`inStock = availableStock > 0` (the slug generation is ignored, no claim
reads the slug). -/
def productPreSave (p : Product) : Product :=
  { p with inStock := p.availableStock > 0 }

/-- The method `updateSoldCount` of `src/models/Product.js`: it adds the
quantity to `soldCount`, recomputes `inStock`, and saves (which runs the
pre-save hook). -/
def Product.updateSoldCount (p : Product) (quantity : Nat) : Product :=
  productPreSave { p with soldCount := p.soldCount + quantity,
                          inStock := p.availableStock - quantity > 0 }

/-- Modelled from the spec: the Inventory Ledger `release` primitive.  The
order routes call `product.releaseReservedInventory(qty)` but the method
is not defined in the source files available; the spec describes it as
reversing a reservation by decrementing the reservation counter, which the
source conflates with `soldCount`. -/
def Product.releaseReservedInventory (p : Product) (qty : Nat) : Product :=
  productPreSave { p with soldCount := p.soldCount - qty }

/-- The direction argument of `updateInventory`: the strings `add` and
`subtract` of the order routes. -/
inductive StockOp where
  | add
  | subtract
deriving DecidableEq

/-- Modelled from the spec: the Inventory Ledger `restore` and `commit`
primitives.  The order routes call `product.updateInventory(qty, op)` but
the method is not defined in the source files available; the spec
describes `restore` as adding back to `totalStock` and `commit` as a
permanent `totalStock` deduction. -/
def Product.updateInventory (p : Product) (qty : Nat) (op : StockOp) : Product :=
  match op with
  | .add => productPreSave { p with totalStock := p.totalStock + qty }
  | .subtract => productPreSave { p with totalStock := p.totalStock - qty }

/-- The database view of the product collection: `Product.findById`
becomes a lookup by `id` in a list of products. -/
def findProduct (products : List Product) (pid : Nat) : Option Product :=
  products.find? (fun p => p.id == pid)

/-- Applying a mutation to the product with the given id, as the routes
do with `Product.findById` followed by a method call that saves: products
with another id are untouched, and a missing id is a no-op (the routes
guard each mutation with `if (product)`). -/
def mapProductById (products : List Product) (pid : Nat) (f : Product → Product) :
    List Product :=
  products.map (fun p => if p.id == pid then f p else p)

/-- A cart line item subdocument of `src/models/Cart.js`.  The `itemId`
field models the subdocument `_id` that Mongoose generates. -/
structure CartItem where
  itemId : Nat
  product : Nat
  quantity : Nat
  variant : Variant
  price : Rat
deriving DecidableEq

/-- The Cart document of `src/models/Cart.js`. -/
structure Cart where
  user : Nat
  items : List CartItem
  totalAmount : Rat
  totalItems : Nat
deriving DecidableEq

/-- The cart pre-save hook of `src/models/Cart.js`: before every save,
`totalItems` and `totalAmount` are recomputed from the items by the same
two `reduce` folds the source uses. -/
def cartPreSave (c : Cart) : Cart :=
  { c with
    totalItems := c.items.foldl (fun total item => total + item.quantity) 0,
    totalAmount := c.items.foldl (fun total item => total + item.price * item.quantity) 0 }

/-- The predicate of the `findIndex` call in `Cart.addItem` (and in the
route `POST /api/cart/add`): same product id, same variant colour, same
variant size. -/
def keyMatches (item : CartItem) (productId : Nat) (variant : Variant) : Bool :=
  item.product == productId &&
  item.variant.colour == variant.colour &&
  item.variant.size == variant.size

/-- The item-list effect of `Cart.addItem`: if some item matches the
product+variant key, the first such item has its quantity increased
(Mongoose `findIndex` returns the first match); otherwise a new item is
pushed at the end.  `freshId` models the subdocument id Mongoose assigns
to a pushed item. -/
def addItemList (items : List CartItem) (productId : Nat) (quantity : Nat)
    (variant : Variant) (price : Rat) (freshId : Nat) : List CartItem :=
  match items with
  | [] => [⟨freshId, productId, quantity, variant, price⟩]
  | item :: rest =>
    if keyMatches item productId variant then
      { item with quantity := item.quantity + quantity } :: rest
    else
      item :: addItemList rest productId quantity variant price freshId

/-- The method `addItem` of `src/models/Cart.js`: merge into the first
matching product+variant line or push a new line, then save (running the
pre-save hook). -/
def Cart.addItem (c : Cart) (productId : Nat) (quantity : Nat)
    (variant : Variant) (price : Rat) (freshId : Nat) : Cart :=
  cartPreSave { c with items := addItemList c.items productId quantity variant price freshId }

/-- The method `updateItemQuantity` of `src/models/Cart.js`: if the item
exists, a quantity of zero pulls it and a positive quantity overwrites it;
in every case the cart is saved. -/
def Cart.updateItemQuantity (c : Cart) (itemId : Nat) (quantity : Nat) : Cart :=
  cartPreSave <|
    if (c.items.find? (fun item => item.itemId == itemId)).isSome then
      if quantity ≤ 0 then
        { c with items := c.items.filter (fun item => item.itemId != itemId) }
      else
        { c with items := c.items.map (fun item =>
            if item.itemId == itemId then { item with quantity := quantity } else item) }
    else c

/-- The method `removeItem` of `src/models/Cart.js`. -/
def Cart.removeItem (c : Cart) (itemId : Nat) : Cart :=
  cartPreSave { c with items := c.items.filter (fun item => item.itemId != itemId) }

/-- The method `clearCart` of `src/models/Cart.js`. -/
def Cart.clearCart (c : Cart) : Cart :=
  cartPreSave { c with items := [] }

/-- The order status enumeration of the Order schema. -/
inductive OrderStatus where
  | pending
  | confirmed
  | processing
  | shipped
  | delivered
  | cancelled
  | refunded
  | returned
deriving DecidableEq

/-- Rendering of a status, as it appears in template strings of the
source. -/
def OrderStatus.toString : OrderStatus → String
  | .pending => "pending"
  | .confirmed => "confirmed"
  | .processing => "processing"
  | .shipped => "shipped"
  | .delivered => "delivered"
  | .cancelled => "cancelled"
  | .refunded => "refunded"
  | .returned => "returned"

/-- An order line item subdocument: the snapshot of a product taken at
order time. -/
structure OrderItem where
  product : Nat
  name : String
  price : Rat
  quantity : Nat
  image : String
  sku : String
deriving DecidableEq

/-- The discount type enumeration of the Order schema. -/
inductive DiscountType where
  | percentage
  | fixed
deriving DecidableEq

/-- The embedded discount record of the Order schema. -/
structure Discount where
  amount : Rat
  code : String
  kind : DiscountType
deriving DecidableEq

/-- One entry of the append-only status history of an order. -/
structure HistoryEntry where
  status : OrderStatus
  date : Nat
  note : String
  updatedBy : Option Nat
deriving DecidableEq

/-- The embedded refund record of the Order schema. -/
structure Refund where
  amount : Rat
  reason : String
  processedAt : Nat
  refundId : Option String
deriving DecidableEq

/-- The Order document of the Order model file, restricted to the fields
the order lifecycle logic reads or writes.  `paymentAmount` models
`paymentInfo.amount` for orders that carry a payment record. -/
structure Order where
  orderNumber : String
  user : Nat
  items : List OrderItem
  subtotal : Rat
  tax : Rat
  taxRate : Rat
  shippingCost : Rat
  discount : Discount
  total : Rat
  status : OrderStatus
  statusHistory : List HistoryEntry
  confirmedAt : Option Nat
  shippedAt : Option Nat
  deliveredAt : Option Nat
  cancelledAt : Option Nat
  refund : Option Refund
  paymentAmount : Option Rat
deriving DecidableEq

/-- The virtual `canBeCancelled` of the Order model: the status is
`pending` or `confirmed`. -/
def Order.canBeCancelled (o : Order) : Bool :=
  o.status == .pending || o.status == .confirmed

/-- The `isNew` branch of the order pre-save hook: the order number is
generated (passed here as a parameter, since it is built from the clock
and a random suffix) and the initial status entry is pushed onto the
history with the note `Order created`. -/
def orderPreSaveNew (o : Order) (orderNumber : String) (now : Nat) : Order :=
  { o with
    orderNumber := orderNumber,
    statusHistory := o.statusHistory ++ [⟨o.status, now, "Order created", none⟩] }

/-- The method `updateStatus` of the Order model: set the status, push a
history entry (with the default note built from the old and new status
when the given note is empty), and set the status-specific timestamp
field for `confirmed`, `shipped`, `delivered` and `cancelled`. -/
def Order.updateStatus (o : Order) (newStatus : OrderStatus) (note : String)
    (updatedBy : Option Nat) (now : Nat) : Order :=
  let entryNote :=
    if note = "" then
      "Status changed from " ++ o.status.toString ++ " to " ++ newStatus.toString
    else note
  let o2 := { o with
    status := newStatus,
    statusHistory := o.statusHistory ++ [⟨newStatus, now, entryNote, updatedBy⟩] }
  match newStatus with
  | .confirmed => { o2 with confirmedAt := some now }
  | .shipped => { o2 with shippedAt := some now }
  | .delivered => { o2 with deliveredAt := some now }
  | .cancelled => { o2 with cancelledAt := some now }
  | _ => o2

/-- The discount amount computed inside `calculateTotals`: a percentage
of the subtotal or a fixed amount, and zero when the stored amount is not
positive. -/
def discountAmountOf (subtotal : Rat) (d : Discount) : Rat :=
  if d.amount > 0 then
    if d.kind = .percentage then subtotal * (d.amount / 100)
    else d.amount
  else 0

/-- The method `calculateTotals` of the Order model: recompute the
subtotal from the items, the tax from the subtotal and tax rate, the
discount amount from the discount record, and the total clamped to be
non-negative; the payment amount is synchronised when a payment record
exists. -/
def Order.calculateTotals (o : Order) : Order :=
  let subtotal := o.items.foldl (fun total item => total + item.price * (item.quantity : Rat)) 0
  let tax := subtotal * o.taxRate
  let discountAmount := discountAmountOf subtotal o.discount
  let total := max 0 (subtotal + tax + o.shippingCost - discountAmount)
  { o with
    subtotal := subtotal,
    tax := tax,
    total := total,
    paymentAmount := o.paymentAmount.map (fun _ => total) }

/-- The method `processRefund` of the Order model: store the refund
record, force the status to `refunded` without consulting the transition
table, and push a history entry. -/
def Order.processRefund (o : Order) (amount : Rat) (reason : String)
    (refundId : Option String) (now : Nat) : Order :=
  { o with
    refund := some ⟨amount, reason, now, refundId⟩,
    status := .refunded,
    statusHistory := o.statusHistory ++
      [⟨.refunded, now,
        "Refund processed: $" ++ toString amount ++ ". Reason: " ++ reason, none⟩] }

/-- One entry of the `stockIssues` detail list built by `POST
/api/checkout`: product name, rendered variant, requested quantity and
available stock of one violating cart line. -/
structure StockIssue where
  productName : String
  variant : String
  requested : Nat
  available : Int
deriving DecidableEq

/-- The business-rule failures of the embedded route handlers. -/
inductive RouteError where
  | emptyCart
  | serverError
  | stockConflict (details : List StockIssue)
  | invalidTransition
  | cannotCancel
  | invalidRefundAmount
deriving DecidableEq

/-- The pricing summary computed by `POST /api/checkout` on success. -/
structure CheckoutSummary where
  subtotal : Rat
  tax : Rat
  shippingCost : Rat
  total : Rat
deriving DecidableEq

/-- The transition table of `PUT /api/orders/:id/status` (the
`validTransitions` object literal of the orders route). -/
def validTransitions : OrderStatus → List OrderStatus
  | .pending => [.confirmed, .cancelled]
  | .confirmed => [.processing, .cancelled]
  | .processing => [.shipped, .cancelled]
  | .shipped => [.delivered, .returned]
  | .delivered => [.returned]
  | .cancelled => []
  | .refunded => []
  | .returned => [.refunded]

/-- The inventory loop shared by the cancellation paths of the orders
routes: for every order item, release the reserved inventory and restore
(`add`) or deduct (`subtract`) the stock of the referenced product. -/
def releaseAndUpdateAll (products : List Product) (items : List OrderItem)
    (op : StockOp) : List Product :=
  items.foldl
    (fun ps item =>
      mapProductById ps item.product
        (fun p => (p.releaseReservedInventory item.quantity).updateInventory item.quantity op))
    products

/-- The handler of `PUT /api/orders/:id/status`, after the order has been
loaded: reject the update with `invalidTransition` when the new status is
not in the allowed list of the current status; otherwise run the
inventory side effects for the cancellation and shipment cases and apply
`updateStatus`.  The result is the response paired with the stored order
and product collection after the handler ran. -/
def updateOrderStatusRoute (order : Order) (products : List Product)
    (status : OrderStatus) (note : String) (actor : Nat) (now : Nat) :
    Option RouteError × Order × List Product :=
  if status ∈ validTransitions order.status then
    let products2 :=
      if status = .cancelled ∧
          (order.status = .pending ∨ order.status = .confirmed ∨
            order.status = .processing) then
        releaseAndUpdateAll products order.items .add
      else if status = .shipped ∧ order.status = .processing then
        releaseAndUpdateAll products order.items .subtract
      else products
    (none, order.updateStatus status note (some actor) now, products2)
  else
    (some .invalidTransition, order, products)

/-- The handler of `POST /api/orders/:id/cancel`, after the order has
been loaded and ownership checked: reject when the virtual
`canBeCancelled` is false, otherwise transition to `cancelled` (with the
default note `Cancelled by user` when no reason is given) and release and
restore the inventory of every item. -/
def cancelOrderRoute (order : Order) (products : List Product)
    (reason : String) (actor : Nat) (now : Nat) :
    Option RouteError × Order × List Product :=
  if !order.canBeCancelled then
    (some .cannotCancel, order, products)
  else
    let o2 := order.updateStatus .cancelled
      (if reason = "" then "Cancelled by user" else reason) (some actor) now
    (none, o2, releaseAndUpdateAll products order.items .add)

/-- The handler of `POST /api/orders/:id/refund`, after the order has
been loaded: reject with `invalidRefundAmount` when the amount exceeds
the order total, otherwise apply `processRefund`.  The product collection
is returned as well to record that the handler never touches it. -/
def refundOrderRoute (order : Order) (products : List Product)
    (amount : Rat) (reason : String) (refundId : Option String) (now : Nat) :
    Option RouteError × Order × List Product :=
  if amount > order.total then
    (some .invalidRefundAmount, order, products)
  else
    (none, order.processRefund amount reason refundId now, products)

/-- The stock test of the checkout validation loop: a cart line violates
when its populated product is not in stock or has less available stock
than the requested quantity. -/
def violatesStock (line : CartItem × Product) : Bool :=
  !line.2.inStock || line.2.availableStock < (line.1.quantity : Int)

/-- The `stockIssues` entry built for one violating line: the product
name, the variant rendered as `colour/size`, the requested quantity and
the available stock. -/
def mkIssue (line : CartItem × Product) : StockIssue :=
  ⟨line.2.name, line.1.variant.colour ++ "/" ++ line.1.variant.size,
    line.1.quantity, line.2.availableStock⟩

/-- The validation loop of `POST /api/checkout`: walk the cart items in
order and collect an issue entry for every violating line. -/
def stockIssuesOf (lines : List (CartItem × Product)) : List StockIssue :=
  lines.foldl (fun acc line => if violatesStock line then acc ++ [mkIssue line] else acc) []

/-- The effect of `populate` on the cart items: pair every item with the
product it references; `none` when some referenced product does not
exist (the handler would then crash on a null product and answer with a
server error). -/
def populateItems (products : List Product) (items : List CartItem) :
    Option (List (CartItem × Product)) :=
  items.mapM (fun item => (findProduct products item.product).map (fun p => (item, p)))

/-- The handler of `POST /api/checkout`: reject an empty cart, collect
the stock issues of all lines and reject with the full list when there is
at least one, otherwise compute the pricing summary (10 percent tax, a
flat 10 shipping fee waived from a subtotal of 100 up).  The handler
performs no write, so the product collection is returned unchanged. -/
def checkoutRoute (cart : Cart) (products : List Product) :
    Except RouteError CheckoutSummary × List Product :=
  if cart.items.isEmpty then
    (.error .emptyCart, products)
  else
    match populateItems products cart.items with
    | none => (.error .serverError, products)
    | some lines =>
      let issues := stockIssuesOf lines
      if !issues.isEmpty then
        (.error (.stockConflict issues), products)
      else
        let subtotal := cart.totalAmount
        let tax := subtotal * (1 / 10)
        let shippingCost : Rat := if subtotal ≥ 100 then 0 else 10
        (.ok ⟨subtotal, tax, shippingCost, subtotal + tax + shippingCost⟩, products)

/-- The stock-update loop of `POST /api/checkout/complete`: for every
cart item, load the product and apply `updateSoldCount` with the item
quantity; no availability check is made. -/
def completeStockUpdate (products : List Product) (items : List CartItem) :
    List Product :=
  items.foldl
    (fun ps item => mapProductById ps item.product (fun p => p.updateSoldCount item.quantity))
    products

/-- The handler of `POST /api/checkout/complete`, after validation and
the (simulated) payment verification: reject an empty cart, otherwise
increment the sold counts of all cart items and clear the cart. -/
def completeCheckoutRoute (cart : Cart) (products : List Product) :
    Option RouteError × List Product × Cart :=
  if cart.items.isEmpty then
    (some .emptyCart, products, cart)
  else
    (none, completeStockUpdate products cart.items, cart.clearCart)

/-- The rejection condition of the stock check in `POST /api/cart/add`
(and of the checkout validation): the product is not in stock or has less
available stock than the requested quantity. -/
def addToCartRejected (p : Product) (quantity : Nat) : Bool :=
  !p.inStock || p.availableStock < (quantity : Int)

/-- The invariant of claim C1 on one product: the sold count is
non-negative and never exceeds the total stock. -/
def stockInvariant (p : Product) : Prop :=
  0 ≤ p.soldCount ∧ p.soldCount ≤ p.totalStock

instance (p : Product) : Decidable (stockInvariant p) := by
  unfold stockInvariant
  infer_instance

/-- The cart aggregate invariant of claim C9: the stored totals agree
with the sums over the items. -/
def cartTotalsInvariant (c : Cart) : Prop :=
  c.totalItems = (c.items.map (fun item => item.quantity)).sum ∧
  c.totalAmount = (c.items.map (fun item => item.price * (item.quantity : Rat))).sum

lemma foldl_quantity (l : List CartItem) (n : Nat) :
    l.foldl (fun total item => total + item.quantity) n
      = n + (l.map (fun item => item.quantity)).sum := by
  induction l generalizing n with
  | nil => simp
  | cons hd tl ih => simp [ih, Nat.add_assoc]

lemma foldl_amount (l : List CartItem) (q : Rat) :
    l.foldl (fun total item => total + item.price * (item.quantity : Rat)) q
      = q + (l.map (fun item => item.price * (item.quantity : Rat))).sum := by
  induction l generalizing q with
  | nil => simp
  | cons hd tl ih => simp [ih, add_assoc]

lemma cartTotalsInvariant_preSave (c : Cart) : cartTotalsInvariant (cartPreSave c) := by
  constructor
  · simp [cartPreSave, foldl_quantity]
  · simp [cartPreSave, foldl_amount]

/-- C9: after every cart mutation (add, update quantity, remove, clear),
the persisted cart satisfies `totalItems` = sum of the line quantities
and `totalAmount` = sum of price times quantity over the lines, because
every mutation saves through the pre-save hook that recomputes both. -/
theorem C9_cart_totals (c : Cart) (productId quantity : Nat) (variant : Variant)
    (price : Rat) (freshId itemId quantity2 itemId2 : Nat) :
    cartTotalsInvariant (c.addItem productId quantity variant price freshId) ∧
    cartTotalsInvariant (c.updateItemQuantity itemId quantity2) ∧
    cartTotalsInvariant (c.removeItem itemId2) ∧
    cartTotalsInvariant c.clearCart :=
  ⟨cartTotalsInvariant_preSave _, cartTotalsInvariant_preSave _,
    cartTotalsInvariant_preSave _, cartTotalsInvariant_preSave _⟩

/-- C6: `calculateTotals` sets the total to the subtotal plus tax plus
shipping cost minus the discount amount, clamped to be non-negative, and
it is idempotent: running it a second time on unchanged inputs returns
the identical order. -/
theorem C6_totals (o : Order) :
    (o.calculateTotals).total =
      max 0 ((o.calculateTotals).subtotal + (o.calculateTotals).tax +
        (o.calculateTotals).shippingCost -
        discountAmountOf (o.calculateTotals).subtotal o.discount) ∧
    (o.calculateTotals).calculateTotals = o.calculateTotals := by
  constructor
  · rfl
  · simp [Order.calculateTotals, Option.map_map]
    rfl

/-- A concrete delivered order with total 100, used by the witnesses. -/
def orderDelivered : Order :=
  { orderNumber := "ORD1", user := 1, items := [], subtotal := 100, tax := 0,
    taxRate := 0, shippingCost := 0, discount := ⟨0, "", .fixed⟩, total := 100,
    status := .delivered, statusHistory := [], confirmedAt := none,
    shippedAt := none, deliveredAt := none, cancelledAt := none, refund := none,
    paymentAmount := none }

/-- The same concrete order in status `pending`. -/
def orderPending : Order :=
  { orderDelivered with status := .pending }

/-- The same concrete order in status `processing`. -/
def orderProcessing : Order :=
  { orderDelivered with status := .processing }

/-- C4: a refund whose amount exceeds the order total is rejected and
leaves the order untouched; a refund up to the total is accepted, records
the refund, forces the status to `refunded` regardless of the current
status, and appends a history entry. -/
theorem C4_refund (o : Order) (products : List Product) (amount : Rat)
    (reason : String) (refundId : Option String) (now : Nat) :
    (amount > o.total →
      refundOrderRoute o products amount reason refundId now =
        (some .invalidRefundAmount, o, products)) ∧
    (amount ≤ o.total →
      refundOrderRoute o products amount reason refundId now =
        (none, o.processRefund amount reason refundId now, products) ∧
      (o.processRefund amount reason refundId now).status = .refunded ∧
      (o.processRefund amount reason refundId now).refund =
        some ⟨amount, reason, now, refundId⟩ ∧
      (o.processRefund amount reason refundId now).statusHistory =
        o.statusHistory ++
          [⟨.refunded, now,
            "Refund processed: $" ++ toString amount ++ ". Reason: " ++ reason,
            none⟩]) := by
  constructor
  · intro h
    simp [refundOrderRoute, h]
  · intro h
    have h2 : ¬ amount > o.total := not_lt.mpr h
    simp [refundOrderRoute, h2, Order.processRefund]

/-- Witness for C4 at a concrete order with total 100: an amount of 101
is rejected and an amount of 40 forces the refunded status. -/
theorem C4_refund_witness :
    refundOrderRoute orderDelivered [] 101 "damaged" none 5 =
      (some .invalidRefundAmount, orderDelivered, []) ∧
    refundOrderRoute orderDelivered [] 40 "damaged" none 5 =
      (none, orderDelivered.processRefund 40 "damaged" none 5, []) ∧
    (orderDelivered.processRefund 40 "damaged" none 5).status = .refunded :=
  ⟨(C4_refund orderDelivered [] 101 "damaged" none 5).1 (by norm_num [orderDelivered]),
    ((C4_refund orderDelivered [] 40 "damaged" none 5).2 (by norm_num [orderDelivered])).1,
    ((C4_refund orderDelivered [] 40 "damaged" none 5).2 (by norm_num [orderDelivered])).2.1⟩

/-- C10: the refund handler only rewrites the refund record, the status
and the status history of the order: the product collection and every
other order field are returned unchanged, so no inventory counter moves
on a refund. -/
theorem C10_refund_frame (o : Order) (products : List Product) (amount : Rat)
    (reason : String) (refundId : Option String) (now : Nat) :
    (refundOrderRoute o products amount reason refundId now).2.2 = products ∧
    ((refundOrderRoute o products amount reason refundId now).2.1).items = o.items ∧
    ((refundOrderRoute o products amount reason refundId now).2.1).user = o.user ∧
    ((refundOrderRoute o products amount reason refundId now).2.1).orderNumber = o.orderNumber ∧
    ((refundOrderRoute o products amount reason refundId now).2.1).subtotal = o.subtotal ∧
    ((refundOrderRoute o products amount reason refundId now).2.1).tax = o.tax ∧
    ((refundOrderRoute o products amount reason refundId now).2.1).taxRate = o.taxRate ∧
    ((refundOrderRoute o products amount reason refundId now).2.1).shippingCost = o.shippingCost ∧
    ((refundOrderRoute o products amount reason refundId now).2.1).discount = o.discount ∧
    ((refundOrderRoute o products amount reason refundId now).2.1).total = o.total ∧
    ((refundOrderRoute o products amount reason refundId now).2.1).confirmedAt = o.confirmedAt ∧
    ((refundOrderRoute o products amount reason refundId now).2.1).shippedAt = o.shippedAt ∧
    ((refundOrderRoute o products amount reason refundId now).2.1).deliveredAt = o.deliveredAt ∧
    ((refundOrderRoute o products amount reason refundId now).2.1).cancelledAt = o.cancelledAt ∧
    ((refundOrderRoute o products amount reason refundId now).2.1).paymentAmount = o.paymentAmount := by
  by_cases h : amount > o.total <;>
    simp [refundOrderRoute, h, Order.processRefund]

/-- C2: the status-update handler succeeds exactly when the requested
status is in the allowed list of the current status, fails with the
invalid-transition error leaving the order untouched otherwise, and the
transition table is exactly the table of the claim. -/
theorem C2_status_transition (o : Order) (products : List Product)
    (status : OrderStatus) (note : String) (actor now : Nat) :
    ((updateOrderStatusRoute o products status note actor now).1 = none ↔
      status ∈ validTransitions o.status) ∧
    (status ∉ validTransitions o.status →
      updateOrderStatusRoute o products status note actor now =
        (some .invalidTransition, o, products)) ∧
    validTransitions .pending = [.confirmed, .cancelled] ∧
    validTransitions .confirmed = [.processing, .cancelled] ∧
    validTransitions .processing = [.shipped, .cancelled] ∧
    validTransitions .shipped = [.delivered, .returned] ∧
    validTransitions .delivered = [.returned] ∧
    validTransitions .cancelled = [] ∧
    validTransitions .refunded = [] ∧
    validTransitions .returned = [.refunded] := by
  refine ⟨?_, ?_, rfl, rfl, rfl, rfl, rfl, rfl, rfl, rfl⟩
  · by_cases h : status ∈ validTransitions o.status <;>
      simp [updateOrderStatusRoute, h]
  · intro h
    simp [updateOrderStatusRoute, h]

/-- Witness for C2 at a concrete pending order: the direct jump to
`shipped` is rejected without change, while `confirmed` is accepted. -/
theorem C2_status_transition_witness :
    updateOrderStatusRoute orderPending [] .shipped "" 1 0 =
      (some .invalidTransition, orderPending, []) ∧
    (updateOrderStatusRoute orderPending [] .confirmed "" 1 0).1 = none :=
  ⟨(C2_status_transition orderPending [] .shipped "" 1 0).2.1 (by decide),
    ((C2_status_transition orderPending [] .confirmed "" 1 0).1).mpr (by decide)⟩

/-- C5 counterexample: for a concrete order in status `processing`, the
cancel handler rejects the cancellation, so the claim that cancellation
succeeds exactly on `{pending, confirmed, processing}` is false. -/
theorem C5_counterexample :
    ¬ (((cancelOrderRoute orderProcessing [] "" 1 0).1 = none) ↔
        (orderProcessing.status = .pending ∨ orderProcessing.status = .confirmed ∨
          orderProcessing.status = .processing)) := by
  decide

/-- C5 amended: the cancel handler succeeds exactly when the order status
is `pending` or `confirmed` (the virtual `canBeCancelled`); on success
the order moves to `cancelled`, and every other status is rejected with
the order and products untouched. -/
theorem C5_amended_cancel (o : Order) (products : List Product) (reason : String)
    (actor now : Nat) :
    ((cancelOrderRoute o products reason actor now).1 = none ↔
      (o.status = .pending ∨ o.status = .confirmed)) ∧
    ((cancelOrderRoute o products reason actor now).1 = none →
      ((cancelOrderRoute o products reason actor now).2.1).status = .cancelled) ∧
    (¬ (o.status = .pending ∨ o.status = .confirmed) →
      cancelOrderRoute o products reason actor now = (some .cannotCancel, o, products)) := by
  have hcan : o.canBeCancelled = true ↔ (o.status = .pending ∨ o.status = .confirmed) := by
    simp [Order.canBeCancelled]
  by_cases h : o.canBeCancelled
  · have hs := hcan.mp h
    refine ⟨?_, ?_, ?_⟩
    · simp [cancelOrderRoute, h, hs]
    · intro _
      simp [cancelOrderRoute, h, Order.updateStatus]
    · intro hcon
      exact absurd hs hcon
  · have hs : ¬ (o.status = .pending ∨ o.status = .confirmed) := fun hc => h (hcan.mpr hc)
    refine ⟨?_, ?_, ?_⟩
    · simp [cancelOrderRoute, h, hs]
    · intro hnone
      exfalso
      have : (cancelOrderRoute o products reason actor now).1 = some .cannotCancel := by
        simp [cancelOrderRoute, h]
      rw [hnone] at this
      exact Option.noConfusion this
    · intro _
      simp [cancelOrderRoute, h]

/-- Witness for the amended C5: the concrete pending order cancels and
becomes `cancelled`, and the concrete processing order is rejected
unchanged. -/
theorem C5_amended_cancel_witness :
    ((cancelOrderRoute orderPending [] "" 1 0).2.1).status = .cancelled ∧
    cancelOrderRoute orderProcessing [] "" 1 0 =
      (some .cannotCancel, orderProcessing, []) :=
  ⟨(C5_amended_cancel orderPending [] "" 1 0).2.1
      (((C5_amended_cancel orderPending [] "" 1 0).1).mpr (by decide)),
    (C5_amended_cancel orderProcessing [] "" 1 0).2.2 (by decide)⟩

/-- C8: every status update appends exactly one history entry carrying
the new status, the timestamp, the given note and the acting user; the
status-specific timestamp field of the new status is set; and the initial
creation entry is pushed by the pre-save hook of a new order. -/
theorem C8_history (o : Order) (s : OrderStatus) (note : String)
    (actor : Option Nat) (now : Nat) (orderNumber : String) (hnote : note ≠ "") :
    (o.updateStatus s note actor now).statusHistory =
      o.statusHistory ++ [⟨s, now, note, actor⟩] ∧
    (o.updateStatus s note actor now).status = s ∧
    (s = .confirmed → (o.updateStatus s note actor now).confirmedAt = some now) ∧
    (s = .shipped → (o.updateStatus s note actor now).shippedAt = some now) ∧
    (s = .delivered → (o.updateStatus s note actor now).deliveredAt = some now) ∧
    (s = .cancelled → (o.updateStatus s note actor now).cancelledAt = some now) ∧
    (orderPreSaveNew o orderNumber now).statusHistory =
      o.statusHistory ++ [⟨o.status, now, "Order created", none⟩] := by
  cases s <;> simp [Order.updateStatus, orderPreSaveNew, hnote]

/-- Witness for C8 at the concrete pending order moved to `confirmed`
with the note `ok`. -/
theorem C8_history_witness :
    (orderPending.updateStatus .confirmed "ok" (some 1) 7).statusHistory =
      orderPending.statusHistory ++ [⟨.confirmed, 7, "ok", some 1⟩] ∧
    (orderPending.updateStatus .confirmed "ok" (some 1) 7).confirmedAt = some 7 :=
  ⟨(C8_history orderPending .confirmed "ok" (some 1) 7 "N" (by decide)).1,
    (C8_history orderPending .confirmed "ok" (some 1) 7 "N" (by decide)).2.2.1 rfl⟩

lemma stockIssues_foldl (l : List (CartItem × Product)) (acc : List StockIssue) :
    l.foldl (fun acc line => if violatesStock line then acc ++ [mkIssue line] else acc) acc
      = acc ++ (l.filter violatesStock).map mkIssue := by
  induction l generalizing acc with
  | nil => simp
  | cons hd tl ih =>
    by_cases h : violatesStock hd <;> simp [h, ih, List.filter_cons]

lemma stockIssuesOf_eq (l : List (CartItem × Product)) :
    stockIssuesOf l = (l.filter violatesStock).map mkIssue := by
  simpa [stockIssuesOf] using stockIssues_foldl l []

/-- C3: a non-empty cart with at least one line whose quantity exceeds
the available stock of its product (or whose product is out of stock)
makes the checkout handler answer with the stock-conflict error whose
detail list contains an issue entry for every violating line, while the
product collection (hence every sold count) is unchanged. -/
theorem C3_stock_conflict (cart : Cart) (products : List Product)
    (lines : List (CartItem × Product))
    (h1 : cart.items ≠ [])
    (h2 : populateItems products cart.items = some lines)
    (h3 : ∃ line ∈ lines, violatesStock line = true) :
    checkoutRoute cart products =
      (.error (.stockConflict (stockIssuesOf lines)), products) ∧
    ∀ line ∈ lines, violatesStock line = true → mkIssue line ∈ stockIssuesOf lines := by
  have hne : cart.items.isEmpty = false := by
    simpa [List.isEmpty_iff] using h1
  obtain ⟨line0, hmem0, hviol0⟩ := h3
  have hfil : line0 ∈ lines.filter violatesStock := List.mem_filter.mpr ⟨hmem0, hviol0⟩
  have hissues : ¬ (stockIssuesOf lines).isEmpty = true := by
    rw [stockIssuesOf_eq]
    intro habs
    rw [List.isEmpty_iff] at habs
    have : mkIssue line0 ∈ (lines.filter violatesStock).map mkIssue :=
      List.mem_map_of_mem mkIssue hfil
    rw [habs] at this
    exact absurd this (List.not_mem_nil _)
  constructor
  · simp [checkoutRoute, hne, h2, hissues]
  · intro line hmem hviol
    rw [stockIssuesOf_eq]
    exact List.mem_map_of_mem mkIssue (List.mem_filter.mpr ⟨hmem, hviol⟩)

/-- A concrete product with two in stock and one sold: one unit is
available. -/
def productLow : Product :=
  ⟨21, "tee", 30, "black", "md", 2, 1, true, true⟩

/-- A concrete cart line requesting five units of `productLow`. -/
def cartItemOver : CartItem :=
  ⟨1, 21, 5, ⟨"black", "md"⟩, 30⟩

/-- A concrete cart holding only the oversized line. -/
def cartOver : Cart :=
  ⟨7, [cartItemOver], 150, 5⟩

/-- Witness for C3: checking out the concrete cart against the concrete
product yields the stock-conflict response with the violating line listed
and leaves the product list unchanged. -/
theorem C3_stock_conflict_witness :
    checkoutRoute cartOver [productLow] =
      (.error (.stockConflict (stockIssuesOf [(cartItemOver, productLow)])),
        [productLow]) :=
  (C3_stock_conflict cartOver [productLow] [(cartItemOver, productLow)]
    (by decide) (by decide) (by decide)).1

/-- The product+variant combination of a cart line, the merge key of the
cart aggregate. -/
def itemKey (item : CartItem) : Nat × String × String :=
  (item.product, item.variant.colour, item.variant.size)

lemma keyMatches_iff (item : CartItem) (productId : Nat) (variant : Variant) :
    keyMatches item productId variant = true ↔
      itemKey item = (productId, variant.colour, variant.size) := by
  simp [keyMatches, itemKey, Prod.ext_iff, Bool.and_eq_true, beq_iff_eq, and_assoc]

lemma addItemList_no_match (l : List CartItem) (productId quantity : Nat)
    (variant : Variant) (price : Rat) (freshId : Nat)
    (h : ∀ item ∈ l, keyMatches item productId variant = false) :
    addItemList l productId quantity variant price freshId =
      l ++ [⟨freshId, productId, quantity, variant, price⟩] := by
  induction l with
  | nil => rfl
  | cons hd tl ih =>
    have hhd : keyMatches hd productId variant = false := h hd (by simp)
    simp [addItemList, hhd, ih (fun item hm => h item (by simp [hm]))]

lemma addItemList_append_match (l : List CartItem) (x : CartItem)
    (productId quantity : Nat) (variant : Variant) (price : Rat) (freshId : Nat)
    (h : ∀ item ∈ l, keyMatches item productId variant = false)
    (hx : keyMatches x productId variant = true) :
    addItemList (l ++ [x]) productId quantity variant price freshId =
      l ++ [{ x with quantity := x.quantity + quantity }] := by
  induction l with
  | nil => simp [addItemList, hx]
  | cons hd tl ih =>
    have hhd : keyMatches hd productId variant = false := h hd (by simp)
    simp [addItemList, hhd, ih (fun item hm => h item (by simp [hm]))]

lemma addItemList_keys (l : List CartItem) (productId quantity : Nat)
    (variant : Variant) (price : Rat) (freshId : Nat) :
    ∀ j ∈ addItemList l productId quantity variant price freshId,
      itemKey j = (productId, variant.colour, variant.size) ∨
        ∃ j0 ∈ l, itemKey j = itemKey j0 := by
  induction l with
  | nil =>
    intro j hj
    simp [addItemList] at hj
    subst hj
    left
    rfl
  | cons hd tl ih =>
    intro j hj
    by_cases hhd : keyMatches hd productId variant
    · simp [addItemList, hhd] at hj
      rcases hj with hj | hj
      · subst hj
        right
        exact ⟨hd, by simp, rfl⟩
      · right
        exact ⟨j, by simp [hj], rfl⟩
    · simp [addItemList, hhd] at hj
      rcases hj with hj | hj
      · subst hj
        right
        exact ⟨j, by simp, rfl⟩
      · rcases ih j hj with h1 | ⟨j0, hj0, hk⟩
        · left
          exact h1
        · right
          exact ⟨j0, by simp [hj0], hk⟩

lemma addItemList_pairwise (l : List CartItem) (productId quantity : Nat)
    (variant : Variant) (price : Rat) (freshId : Nat)
    (h : l.Pairwise (fun i j => itemKey i ≠ itemKey j)) :
    (addItemList l productId quantity variant price freshId).Pairwise
      (fun i j => itemKey i ≠ itemKey j) := by
  induction l with
  | nil => simp [addItemList]
  | cons hd tl ih =>
    rw [List.pairwise_cons] at h
    obtain ⟨hhdtl, htl⟩ := h
    by_cases hhd : keyMatches hd productId variant
    · simp [addItemList, hhd]
      exact ⟨fun j hj => hhdtl j hj, htl⟩
    · simp only [addItemList, hhd, if_neg, Bool.false_eq_true, if_false]
      rw [List.pairwise_cons]
      refine ⟨?_, ih htl⟩
      intro j hj
      rcases addItemList_keys tl productId quantity variant price freshId j hj with
        hk | ⟨j0, hj0, hk⟩
      · rw [hk]
        intro habs
        exact absurd ((keyMatches_iff hd productId variant).mpr habs) (by simp [hhd])
      · rw [hk]
        exact hhdtl j0 hj0

/-- C7: adding the same product+variant twice with quantities a and b to
a cart that does not yet hold that combination leaves exactly one line
for the combination, with quantity a + b; and one `addItem` step
preserves the invariant that no two lines share a product+variant
combination. -/
theorem C7_merge (c : Cart) (productId : Nat) (variant : Variant) (a b : Nat)
    (price : Rat) (freshId1 freshId2 : Nat)
    (h1 : ∀ item ∈ c.items, keyMatches item productId variant = false)
    (h2 : c.items.Pairwise (fun i j => itemKey i ≠ itemKey j)) :
    (((c.addItem productId a variant price freshId1).addItem
        productId b variant price freshId2).items.filter
      (fun item => keyMatches item productId variant)) =
      [⟨freshId1, productId, a + b, variant, price⟩] ∧
    ((c.addItem productId a variant price freshId1).addItem
        productId b variant price freshId2).items.Pairwise
      (fun i j => itemKey i ≠ itemKey j) ∧
    (∀ (c2 : Cart) (quantity freshId : Nat),
      c2.items.Pairwise (fun i j => itemKey i ≠ itemKey j) →
      (c2.addItem productId quantity variant price freshId).items.Pairwise
        (fun i j => itemKey i ≠ itemKey j)) := by
  have hx : keyMatches ⟨freshId1, productId, a, variant, price⟩ productId variant = true := by
    simp [keyMatches]
  have hitems1 :
      (c.addItem productId a variant price freshId1).items =
        c.items ++ [⟨freshId1, productId, a, variant, price⟩] := by
    simp [Cart.addItem, cartPreSave, addItemList_no_match c.items productId a variant price freshId1 h1]
  have hitems2 :
      ((c.addItem productId a variant price freshId1).addItem
          productId b variant price freshId2).items =
        c.items ++ [⟨freshId1, productId, a + b, variant, price⟩] := by
    simp [Cart.addItem, cartPreSave] at hitems1 ⊢
    rw [hitems1, addItemList_append_match c.items _ productId b variant price freshId2 h1 hx]
  refine ⟨?_, ?_, ?_⟩
  · rw [hitems2, List.filter_append]
    have hleft : c.items.filter (fun item => keyMatches item productId variant) = [] := by
      rw [List.filter_eq_nil_iff]
      intro item hm
      simp [h1 item hm]
    rw [hleft]
    simp [keyMatches]
  · rw [hitems2]
    rw [List.pairwise_append]
    refine ⟨h2, by simp, ?_⟩
    intro i hi j hj
    simp at hj
    subst hj
    intro habs
    exact absurd ((keyMatches_iff i productId variant).mpr habs) (by simp [h1 i hi])
  · intro c2 quantity freshId hp
    simpa [Cart.addItem, cartPreSave] using
      addItemList_pairwise c2.items productId quantity variant price freshId hp

/-- An empty concrete cart for the C7 witness. -/
def cartEmpty : Cart :=
  ⟨9, [], 0, 0⟩

/-- Witness for C7: adding 2 then 3 units of the same product+variant to
an empty cart yields the single merged line with quantity 5. -/
theorem C7_merge_witness :
    ((cartEmpty.addItem 21 2 ⟨"black", "md"⟩ 30 41).addItem
        21 3 ⟨"black", "md"⟩ 30 42).items.filter
      (fun item => keyMatches item 21 ⟨"black", "md"⟩) =
      [⟨41, 21, 2 + 3, ⟨"black", "md"⟩, 30⟩] :=
  (C7_merge cartEmpty 21 ⟨"black", "md"⟩ 2 3 30 41 42
    (by simp [cartEmpty]) (by simp [cartEmpty])).1

/-- A concrete product with ten in stock and none sold. -/
def productTen : Product :=
  ⟨2, "hoodie", 50, "black", "md", 10, 0, true, true⟩

/-- A cart of one user holding ten units of `productTen`. -/
def cartTenA : Cart :=
  ⟨11, [⟨1, 2, 10, ⟨"black", "md"⟩, 50⟩], 500, 10⟩

/-- A cart of a second user holding ten units of `productTen`. -/
def cartTenB : Cart :=
  ⟨12, [⟨2, 2, 10, ⟨"black", "md"⟩, 50⟩], 500, 10⟩

/-- C1 fails on the code: with ten units available, both carts pass the
stock check of `POST /api/cart/add` for quantity ten, yet completing both
checkouts runs `updateSoldCount` without any availability re-check and
drives the sold count to twenty, above the total stock of ten, breaking
the invariant `0 <= soldCount <= totalStock`. -/
theorem C1_oversell :
    addToCartRejected productTen 10 = false ∧
    (∃ p ∈ (completeCheckoutRoute cartTenB
        (completeCheckoutRoute cartTenA [productTen]).2.1).2.1,
      ¬ stockInvariant p) := by
  decide

end Shop
